import Mathlib

/-!
Shallow embedding of `src/Feature_Selection.py` (class `SimpleAdjustmentSystem`).

Numeric cell values and the drawn magnitude are modelled as rationals (ℚ);
the random draws of `np.random.uniform(0.01, 0.1)` and
`np.random.choice(['+', '-'])` are modelled as explicit inputs: a unit draw
`u ∈ [0, 1)` (numpy returns `low + (high - low) * u`) and a Boolean coin for
the sign choice.  The SQLite connection is modelled as an explicit state
value: a list of rows of the `adjustments` table together with the
`AUTOINCREMENT` counter, an open/closed flag for the connection, and a flag
modelling the underlying storage refusing writes (disk failure).  A SQLite
call that raises is modelled as `Except.error`; in that case no new state is
produced, matching the fact that a failed `INSERT` leaves the database file
unchanged.
-/

namespace FeatureSelection

/-- One row of the `adjustments` table created by `create_table`:
`(id INTEGER PRIMARY KEY AUTOINCREMENT, random_value REAL, operation TEXT,
timestamp DATETIME)`.  Timestamps are the ISO-8601 strings produced by
`datetime.now().isoformat()`; SQLite compares them as text, which for this
format coincides with chronological order. -/
structure AdjustmentRow where
  id : Nat
  random_value : ℚ
  operation : String
  timestamp : String
deriving DecidableEq, Repr

/-- Errors a SQLite call can raise in this program: operating on a closed
connection (`sqlite3.ProgrammingError`) or a failure of the underlying
storage to accept a write (`sqlite3.OperationalError`). -/
inductive DbError where
  | closed
  | persistence
deriving DecidableEq, Repr

/-- The state of a `SimpleAdjustmentSystem` instance: whether `self.conn` is
open, whether the underlying storage currently fails writes, the next
`AUTOINCREMENT` id, and the rows of the `adjustments` table in insertion
order. -/
structure SystemState where
  isOpen : Bool
  writeFails : Bool
  nextId : Nat
  rows : List AdjustmentRow
deriving DecidableEq, Repr

/-- `__init__` / `create_table`: a fresh connection with an empty
`adjustments` table; SQLite `AUTOINCREMENT` assigns ids starting from 1. -/
def initState : SystemState :=
  { isOpen := true, writeFails := false, nextId := 1, rows := [] }

/-- `close`: `self.conn.close()`.  Only flips the connection flag; the rows
already on disk are untouched. -/
def close (s : SystemState) : SystemState :=
  { s with isOpen := false }

/-- A pandas DataFrame: a list of column names and a list of rows, each row a
list of cell values positionally matching `cols`. -/
structure DataFrame where
  cols : List String
  rows : List (List ℚ)
deriving DecidableEq, Repr

/-- Index of the first column with the given label (pandas label lookup). -/
def colIdxAux (col : String) : List String → Option Nat
  | [] => none
  | c :: cs => if c = col then some 0 else (colIdxAux col cs).map (· + 1)

/-- Position of a column label in the DataFrame. -/
def DataFrame.colIdx (df : DataFrame) (col : String) : Option Nat :=
  colIdxAux col df.cols

/-- `df.loc[idx, col]` (read): the cell at row position `idx` in the column
labelled `col`. -/
def DataFrame.get (df : DataFrame) (idx : Nat) (col : String) : ℚ :=
  match df.colIdx col with
  | some j => (df.rows.getD idx []).getD j 0
  | none => 0

/-- `adjusted_df.loc[idx, col] = v` (write): replace the cell at row
position `idx` in the column labelled `col`. -/
def DataFrame.set (df : DataFrame) (idx : Nat) (col : String) (v : ℚ) : DataFrame :=
  match df.colIdx col with
  | some j => { df with rows := df.rows.set idx ((df.rows.getD idx []).set j v) }
  | none => df

/-- Round half to even on ℚ, the tie-breaking rule of Python's built-in
`round`. -/
def rhe (x : ℚ) : ℤ :=
  if x - ⌊x⌋ < 1/2 then ⌊x⌋
  else if 1/2 < x - ⌊x⌋ then ⌊x⌋ + 1
  else if ⌊x⌋ % 2 = 0 then ⌊x⌋ else ⌊x⌋ + 1

/-- `round(x, 5)`: round to 5 decimal digits. -/
def round5 (x : ℚ) : ℚ :=
  (rhe (x * 100000) : ℚ) / 100000

/-- `np.random.uniform(low, high)` with an explicit unit draw `u`: numpy
computes `low + (high - low) * u` with `u` drawn from `[0, 1)`. -/
def npUniform (low high u : ℚ) : ℚ :=
  low + (high - low) * u

/-- `np.random.choice(['+', '-'])` with an explicit Boolean draw. -/
def npChoiceSign (c : Bool) : String :=
  if c then "+" else "-"

/-- `generate_and_store_random`: draw the magnitude and the sign, `INSERT`
one row `(random_value, operation, timestamp)` into `adjustments` (the id
comes from `AUTOINCREMENT`), and return the pair.  The `INSERT` raises if
the connection is closed or the storage fails the write; the exception
propagates (there is no handler in the source). -/
def generate_and_store_random (s : SystemState) (u : ℚ) (c : Bool) (now : String) :
    Except DbError (SystemState × ℚ × String) :=
  let random_value := npUniform 0.01 0.1 u
  let operation := npChoiceSign c
  if s.isOpen then
    if s.writeFails then .error .persistence
    else .ok ({ s with
                  nextId := s.nextId + 1,
                  rows := s.rows ++ [{ id := s.nextId, random_value := random_value,
                                       operation := operation, timestamp := now }] },
              random_value, operation)
  else .error .closed

/-- The branch `if operation == '+': ... + random_value else ... - random_value`. -/
def applyOp (operation : String) (current_value random_value : ℚ) : ℚ :=
  if operation = "+" then current_value + random_value
  else current_value - random_value

/-- The body of the inner loop of `adjust_dataframe` for one cell:
apply the operation, clamp with `max(0, min(1, new_value))`, and
`round(new_value, 5)`. -/
def adjustCell (operation : String) (random_value current_value : ℚ) : ℚ :=
  round5 (max 0 (min 1 (applyOp operation current_value random_value)))

/-- The inner loop `for idx in df.index:` of `adjust_dataframe` for one
selected column: every cell is read from the original `df` and written into
the accumulating `adjusted_df`. -/
def adjustColumn (df : DataFrame) (operation : String) (random_value : ℚ)
    (adjusted : DataFrame) (col : String) : DataFrame :=
  (List.range df.rows.length).foldl
    (fun acc idx => acc.set idx col (adjustCell operation random_value (df.get idx col)))
    adjusted

/-- `adjust_dataframe`: copy the DataFrame, call
`generate_and_store_random`, then run the nested loop over
`selected_features` and `df.index`; return the adjusted copy together with
the drawn magnitude and sign.  If the history `INSERT` raises, the exception
propagates and no adjusted table is returned. -/
def adjust_dataframe (s : SystemState) (df : DataFrame) (selected_features : List String)
    (u : ℚ) (c : Bool) (now : String) :
    Except DbError (SystemState × DataFrame × ℚ × String) :=
  let adjusted_df := df
  match generate_and_store_random s u c now with
  | .error e => .error e
  | .ok (s', random_value, operation) =>
      .ok (s', selected_features.foldl (adjustColumn df operation random_value) adjusted_df,
           random_value, operation)

/-- The comparison realised by `ORDER BY timestamp DESC`: `a` may come
before `b` when `b.timestamp ≤ a.timestamp`.  Rows with equal timestamps
are kept in table-scan order (ids ascending), the deterministic reading of
SQLite's unspecified tie order, realised here by a stable sort. -/
def tsDesc (a b : AdjustmentRow) : Bool :=
  decide (b.timestamp ≤ a.timestamp)

/-- `get_adjustment_history`: `SELECT * FROM adjustments ORDER BY timestamp
DESC LIMIT 10`.  Raises if the connection is closed; otherwise a pure read. -/
def get_adjustment_history (s : SystemState) : Except DbError (List AdjustmentRow) :=
  if s.isOpen then .ok ((s.rows.mergeSort tsDesc).take 10)
  else .error .closed

/-- The signed delta of the spec's formula `currentValue + sign·magnitude`:
`'+'` contributes `+1`, anything else (i.e. `'-'`) contributes `-1`. -/
def signVal (operation : String) : ℚ :=
  if operation = "+" then 1 else -1

/-- One write of the inner loop, as a step function for `List.foldl`. -/
def writeColStep (df : DataFrame) (operation : String) (random_value : ℚ)
    (col : String) (acc : DataFrame) (idx : Nat) : DataFrame :=
  acc.set idx col (adjustCell operation random_value (df.get idx col))

/-- `acc` has the column set of `df`, as many rows as `df`, and rectangular
rows; invariant of the nested loop of `adjust_dataframe`. -/
def sameShape (df acc : DataFrame) : Prop :=
  acc.cols = df.cols ∧ acc.rows.length = df.rows.length ∧
  ∀ r ∈ acc.rows, r.length = df.cols.length

lemma getD_set_eq {α : Type} (l : List α) (i : Nat) (a d : α) (h : i < l.length) :
    (l.set i a).getD i d = a := by
  rw [List.getD_eq_getElem?_getD, List.getElem?_set]
  simp [h]

lemma getD_set_ne {α : Type} (l : List α) (i j : Nat) (a d : α) (h : j ≠ i) :
    (l.set i a).getD j d = l.getD j d := by
  rw [List.getD_eq_getElem?_getD, List.getElem?_set_ne (Ne.symm h),
    ← List.getD_eq_getElem?_getD]

lemma getD_set_oob {α : Type} (l : List α) (i : Nat) (a d : α) (h : ¬ i < l.length) :
    (l.set i a).getD i d = l.getD i d := by
  rw [List.set_eq_of_length_le (by omega)]

lemma colIdxAux_lt_length {col : String} {cs : List String} {j : Nat}
    (h : colIdxAux col cs = some j) : j < cs.length := by
  induction cs generalizing j with
  | nil => simp [colIdxAux] at h
  | cons c cs ih =>
    simp only [colIdxAux] at h
    by_cases hc : c = col
    · rw [if_pos hc] at h
      cases h
      simp
    · rw [if_neg hc] at h
      rcases hm : colIdxAux col cs with _ | a
      · rw [hm] at h
        simp at h
      · rw [hm] at h
        have haj : a + 1 = j := by simpa using h
        have := ih hm
        simp only [List.length_cons]
        omega

lemma colIdxAux_getElem? {col : String} {cs : List String} {j : Nat}
    (h : colIdxAux col cs = some j) : cs[j]? = some col := by
  induction cs generalizing j with
  | nil => simp [colIdxAux] at h
  | cons c cs ih =>
    simp only [colIdxAux] at h
    by_cases hc : c = col
    · rw [if_pos hc] at h
      cases h
      simpa using hc
    · rw [if_neg hc] at h
      rcases hm : colIdxAux col cs with _ | a
      · rw [hm] at h
        simp at h
      · rw [hm] at h
        have haj : a + 1 = j := by simpa using h
        subst haj
        simpa using ih hm

lemma colIdxAux_of_mem {col : String} {cs : List String} (h : col ∈ cs) :
    ∃ j, colIdxAux col cs = some j := by
  induction cs with
  | nil => simp at h
  | cons c cs ih =>
    by_cases hc : c = col
    · exact ⟨0, by simp [colIdxAux, hc]⟩
    · rcases List.mem_cons.mp h with h | h
      · exact absurd h.symm hc
      · obtain ⟨j, hj⟩ := ih h
        exact ⟨j + 1, by simp [colIdxAux, hc, hj]⟩

lemma colIdxAux_inj {col col' : String} {cs : List String} {j : Nat}
    (h : colIdxAux col cs = some j) (h' : colIdxAux col' cs = some j) :
    col = col' := by
  have h1 := colIdxAux_getElem? h
  have h2 := colIdxAux_getElem? h'
  rw [h1] at h2
  exact (Option.some.injEq _ _).mp h2

lemma DataFrame.cols_set (df : DataFrame) (idx : Nat) (col : String) (v : ℚ) :
    (df.set idx col v).cols = df.cols := by
  unfold DataFrame.set
  rcases h : df.colIdx col with _ | j <;> simp

lemma DataFrame.colIdx_set (df : DataFrame) (idx : Nat) (col : String) (v : ℚ)
    (c : String) : (df.set idx col v).colIdx c = df.colIdx c := by
  unfold DataFrame.colIdx
  rw [DataFrame.cols_set]

lemma DataFrame.length_rows_set (df : DataFrame) (idx : Nat) (col : String) (v : ℚ) :
    (df.set idx col v).rows.length = df.rows.length := by
  unfold DataFrame.set
  rcases h : df.colIdx col with _ | j <;> simp

lemma DataFrame.set_of_colIdx_some {df : DataFrame} {col : String} {j : Nat}
    (h : df.colIdx col = some j) (idx : Nat) (v : ℚ) :
    df.set idx col v =
      { df with rows := df.rows.set idx ((df.rows.getD idx []).set j v) } := by
  unfold DataFrame.set
  rw [h]

lemma DataFrame.get_of_colIdx_some {df : DataFrame} {col : String} {j : Nat}
    (h : df.colIdx col = some j) (idx : Nat) :
    df.get idx col = (df.rows.getD idx []).getD j 0 := by
  unfold DataFrame.get
  rw [h]

lemma DataFrame.get_set_self (df : DataFrame) (idx : Nat) (col : String) (v : ℚ)
    (hcol : col ∈ df.cols) (hidx : idx < df.rows.length)
    (hrect : ∀ r ∈ df.rows, r.length = df.cols.length) :
    (df.set idx col v).get idx col = v := by
  obtain ⟨j, hj⟩ := colIdxAux_of_mem hcol
  have hj' : df.colIdx col = some j := hj
  have hjlt : j < df.cols.length := colIdxAux_lt_length hj
  have hrow : df.rows.getD idx [] = df.rows[idx] := by
    rw [List.getD_eq_getElem?_getD, List.getElem?_eq_getElem hidx, Option.getD_some]
  have hrlen : (df.rows.getD idx []).length = df.cols.length := by
    rw [hrow]
    exact hrect _ (List.getElem_mem hidx)
  have hset := DataFrame.set_of_colIdx_some hj' idx v
  have hcix : (df.set idx col v).colIdx col = some j := by
    rw [DataFrame.colIdx_set]
    exact hj'
  rw [DataFrame.get_of_colIdx_some hcix idx, hset]
  show ((df.rows.set idx ((df.rows.getD idx []).set j v)).getD idx []).getD j 0 = v
  rw [getD_set_eq _ _ _ _ hidx, getD_set_eq _ _ _ _ (by omega)]

lemma DataFrame.get_set_other (df : DataFrame) (idx : Nat) (col : String) (v : ℚ)
    (idx' : Nat) (col' : String) (h : idx' ≠ idx ∨ col' ≠ col) :
    (df.set idx col v).get idx' col' = df.get idx' col' := by
  rcases hcl : df.colIdx col with _ | j
  · unfold DataFrame.set
    rw [hcl]
  · have hset := DataFrame.set_of_colIdx_some hcl idx v
    rcases hcl' : df.colIdx col' with _ | j'
    · have hcix : (df.set idx col v).colIdx col' = none := by
        rw [DataFrame.colIdx_set]
        exact hcl'
      unfold DataFrame.get
      rw [hcix, hcl']
    · have hcix : (df.set idx col v).colIdx col' = some j' := by
        rw [DataFrame.colIdx_set]
        exact hcl'
      rw [DataFrame.get_of_colIdx_some hcix idx', DataFrame.get_of_colIdx_some hcl' idx',
        hset]
      show ((df.rows.set idx ((df.rows.getD idx []).set j v)).getD idx' []).getD j' 0
          = (df.rows.getD idx' []).getD j' 0
      rcases h with hii | hcc
      · rw [getD_set_ne _ _ _ _ _ hii]
      · have hjj : j' ≠ j := by
          intro heq
          subst heq
          exact hcc (colIdxAux_inj hcl' hcl)
        by_cases hii : idx' = idx
        · subst hii
          by_cases hlt : idx' < df.rows.length
          · rw [getD_set_eq _ _ _ _ hlt, getD_set_ne _ _ _ _ _ hjj]
          · rw [getD_set_oob _ _ _ _ hlt]
        · rw [getD_set_ne _ _ _ _ _ hii]

lemma sameShape_refl {df : DataFrame}
    (hrect : ∀ r ∈ df.rows, r.length = df.cols.length) : sameShape df df :=
  ⟨rfl, rfl, hrect⟩

lemma sameShape_set {df acc : DataFrame} (h : sameShape df acc)
    (idx : Nat) (col : String) (v : ℚ) : sameShape df (acc.set idx col v) := by
  obtain ⟨hc, hl, hr⟩ := h
  rcases hcl : acc.colIdx col with _ | j
  · unfold DataFrame.set
    rw [hcl]
    exact ⟨hc, hl, hr⟩
  · rw [DataFrame.set_of_colIdx_some hcl idx v]
    refine ⟨hc, by simpa using hl, ?_⟩
    intro r hrm
    by_cases hlt : idx < acc.rows.length
    · rcases List.mem_or_eq_of_mem_set hrm with hrm' | rfl
      · exact hr r hrm'
      · rw [List.length_set]
        have hacc : acc.rows.getD idx [] = acc.rows[idx] := by
          rw [List.getD_eq_getElem?_getD, List.getElem?_eq_getElem hlt, Option.getD_some]
        rw [hacc]
        exact hr _ (List.getElem_mem hlt)
    · rw [List.set_eq_of_length_le (by omega)] at hrm
      exact hr r hrm

lemma foldl_writeColStep_get_ne_col (df : DataFrame) (operation : String)
    (random_value : ℚ) (col : String) {col' : String} (hcc : col' ≠ col)
    (L : List Nat) (acc : DataFrame) (idx' : Nat) :
    (L.foldl (writeColStep df operation random_value col) acc).get idx' col'
      = acc.get idx' col' := by
  induction L generalizing acc with
  | nil => rfl
  | cons i L ih =>
    rw [List.foldl_cons, ih]
    exact DataFrame.get_set_other acc i col _ idx' col' (Or.inr hcc)

lemma foldl_writeColStep_get_ne_idx (df : DataFrame) (operation : String)
    (random_value : ℚ) (col : String) (col' : String)
    (L : List Nat) (acc : DataFrame) {idx' : Nat} (hL : idx' ∉ L) :
    (L.foldl (writeColStep df operation random_value col) acc).get idx' col'
      = acc.get idx' col' := by
  induction L generalizing acc with
  | nil => rfl
  | cons i L ih =>
    have hni : idx' ≠ i := fun heq => hL (by rw [heq]; exact List.mem_cons_self i L)
    have hnL : idx' ∉ L := fun hmem => hL (List.mem_cons_of_mem i hmem)
    rw [List.foldl_cons]
    exact (ih _ hnL).trans (DataFrame.get_set_other acc i col _ idx' col' (Or.inl hni))

lemma sameShape_foldl_writeColStep (df : DataFrame) (operation : String)
    (random_value : ℚ) (col : String) (L : List Nat) {acc : DataFrame}
    (h : sameShape df acc) :
    sameShape df (L.foldl (writeColStep df operation random_value col) acc) := by
  induction L generalizing acc with
  | nil => exact h
  | cons i L ih =>
    rw [List.foldl_cons]
    exact ih (sameShape_set h i col _)

lemma foldl_writeColStep_get_mem (df : DataFrame) (operation : String)
    (random_value : ℚ) (col : String) (L : List Nat) {acc : DataFrame} {idx : Nat}
    (hL : idx ∈ L) (hshape : sameShape df acc) (hcol : col ∈ df.cols)
    (hidx : idx < df.rows.length) :
    (L.foldl (writeColStep df operation random_value col) acc).get idx col
      = adjustCell operation random_value (df.get idx col) := by
  induction L generalizing acc with
  | nil => simp at hL
  | cons i L ih =>
    rw [List.foldl_cons]
    by_cases hmem : idx ∈ L
    · exact ih hmem (sameShape_set hshape i col _)
    · have hidxi : idx = i := by
        rcases List.mem_cons.mp hL with h | h
        · exact h
        · exact absurd h hmem
      subst hidxi
      rw [foldl_writeColStep_get_ne_idx df operation random_value col col L _ hmem]
      unfold writeColStep
      exact DataFrame.get_set_self acc idx col _
        (hshape.1 ▸ hcol) (hshape.2.1 ▸ hidx)
        (fun r hr => by rw [hshape.1]; exact hshape.2.2 r hr)

lemma adjustColumn_eq_foldl (df : DataFrame) (operation : String)
    (random_value : ℚ) (acc : DataFrame) (col : String) :
    adjustColumn df operation random_value acc col
      = (List.range df.rows.length).foldl (writeColStep df operation random_value col) acc :=
  rfl

lemma foldl_adjustColumn_get_not_mem (df : DataFrame) (operation : String)
    (random_value : ℚ) (sel : List String) {col' : String} (hsel : col' ∉ sel)
    (acc : DataFrame) (idx' : Nat) :
    (sel.foldl (adjustColumn df operation random_value) acc).get idx' col'
      = acc.get idx' col' := by
  induction sel generalizing acc with
  | nil => rfl
  | cons c sel ih =>
    rw [List.foldl_cons, ih (fun hmem => hsel (List.mem_cons_of_mem c hmem))]
    rw [adjustColumn_eq_foldl]
    exact foldl_writeColStep_get_ne_col df operation random_value c
      (fun heq => hsel (by rw [heq]; exact List.mem_cons_self c sel)) _ acc idx'

lemma sameShape_foldl_adjustColumn (df : DataFrame) (operation : String)
    (random_value : ℚ) (sel : List String) {acc : DataFrame} (h : sameShape df acc) :
    sameShape df (sel.foldl (adjustColumn df operation random_value) acc) := by
  induction sel generalizing acc with
  | nil => exact h
  | cons c sel ih =>
    rw [List.foldl_cons]
    exact ih (by
      rw [adjustColumn_eq_foldl]
      exact sameShape_foldl_writeColStep df operation random_value c _ h)

lemma foldl_adjustColumn_get_mem (df : DataFrame) (operation : String)
    (random_value : ℚ) (sel : List String) {acc : DataFrame} {idx : Nat} {col : String}
    (hsel : col ∈ sel) (hshape : sameShape df acc) (hcol : col ∈ df.cols)
    (hidx : idx < df.rows.length) :
    (sel.foldl (adjustColumn df operation random_value) acc).get idx col
      = adjustCell operation random_value (df.get idx col) := by
  induction sel generalizing acc with
  | nil => simp at hsel
  | cons c sel ih =>
    rw [List.foldl_cons]
    by_cases hmem : col ∈ sel
    · refine ih hmem ?_
      rw [adjustColumn_eq_foldl]
      exact sameShape_foldl_writeColStep df operation random_value c _ hshape
    · have hcc : c = col := by
        rcases List.mem_cons.mp hsel with h | h
        · exact h.symm
        · exact absurd h hmem
      subst hcc
      rw [foldl_adjustColumn_get_not_mem df operation random_value sel hmem]
      rw [adjustColumn_eq_foldl]
      exact foldl_writeColStep_get_mem df operation random_value c _
        (List.mem_range.mpr hidx) hshape hcol hidx

lemma generate_ok_inv {s : SystemState} {u : ℚ} {c : Bool} {now : String}
    {s' : SystemState} {rv : ℚ} {op : String}
    (h : generate_and_store_random s u c now = .ok (s', rv, op)) :
    s.isOpen = true ∧ s.writeFails = false ∧
    rv = npUniform 0.01 0.1 u ∧ op = npChoiceSign c ∧
    s' = { s with nextId := s.nextId + 1,
                  rows := s.rows ++ [{ id := s.nextId, random_value := rv,
                                       operation := op, timestamp := now }] } := by
  unfold generate_and_store_random at h
  by_cases h1 : s.isOpen = true
  · by_cases h2 : s.writeFails = true
    · rw [if_pos h1, if_pos h2] at h
      exact absurd h (by simp)
    · rw [if_pos h1, if_neg h2] at h
      simp only [Except.ok.injEq, Prod.mk.injEq] at h
      obtain ⟨hs, hrv, hop⟩ := h
      refine ⟨h1, by simpa using h2, hrv.symm, hop.symm, ?_⟩
      rw [← hs, ← hrv, ← hop]
  · rw [if_neg h1] at h
    exact absurd h (by simp)

lemma generate_closed {s : SystemState} (u : ℚ) (c : Bool) (now : String)
    (h : s.isOpen = false) :
    generate_and_store_random s u c now = .error .closed := by
  unfold generate_and_store_random
  rw [if_neg (by simp [h])]

lemma generate_persistence {s : SystemState} (u : ℚ) (c : Bool) (now : String)
    (h1 : s.isOpen = true) (h2 : s.writeFails = true) :
    generate_and_store_random s u c now = .error .persistence := by
  unfold generate_and_store_random
  rw [if_pos h1, if_pos h2]

lemma generate_open_ok (s : SystemState) (u : ℚ) (c : Bool) (now : String)
    (h1 : s.isOpen = true) (h2 : s.writeFails = false) :
    generate_and_store_random s u c now =
      .ok ({ s with nextId := s.nextId + 1,
                    rows := s.rows ++ [{ id := s.nextId,
                                         random_value := npUniform 0.01 0.1 u,
                                         operation := npChoiceSign c,
                                         timestamp := now }] },
           npUniform 0.01 0.1 u, npChoiceSign c) := by
  unfold generate_and_store_random
  rw [if_pos h1, if_neg (by simp [h2])]

lemma adjust_ok_inv {s : SystemState} {df : DataFrame} {sel : List String}
    {u : ℚ} {c : Bool} {now : String} {s' : SystemState} {out : DataFrame}
    {rv : ℚ} {op : String}
    (h : adjust_dataframe s df sel u c now = .ok (s', out, rv, op)) :
    generate_and_store_random s u c now = .ok (s', rv, op) ∧
    out = sel.foldl (adjustColumn df op rv) df := by
  unfold adjust_dataframe at h
  rcases hg : generate_and_store_random s u c now with e | ⟨s'', rv'', op''⟩
  · rw [hg] at h
    exact absurd h (by simp)
  · rw [hg] at h
    simp only [Except.ok.injEq, Prod.mk.injEq] at h
    obtain ⟨hs, hout, hrv, hop⟩ := h
    subst hs hrv hop
    exact ⟨rfl, hout.symm⟩

lemma adjust_error_of_generate_error {s : SystemState} {df : DataFrame}
    {sel : List String} {u : ℚ} {c : Bool} {now : String} {e : DbError}
    (h : generate_and_store_random s u c now = .error e) :
    adjust_dataframe s df sel u c now = .error e := by
  unfold adjust_dataframe
  rw [h]

lemma adjust_ok_of_generate_ok {s : SystemState} {df : DataFrame}
    {sel : List String} {u : ℚ} {c : Bool} {now : String} {s' : SystemState}
    {rv : ℚ} {op : String}
    (h : generate_and_store_random s u c now = .ok (s', rv, op)) :
    adjust_dataframe s df sel u c now =
      .ok (s', sel.foldl (adjustColumn df op rv) df, rv, op) := by
  unfold adjust_dataframe
  rw [h]

lemma rhe_ge_floor (x : ℚ) : ⌊x⌋ ≤ rhe x := by
  unfold rhe
  split_ifs <;> omega

lemma rhe_le_ceil (x : ℚ) : rhe x ≤ ⌈x⌉ := by
  have hfc : ⌊x⌋ ≤ ⌈x⌉ := Int.floor_le_ceil x
  have hlt : (⌊x⌋ : ℚ) < x → ⌊x⌋ + 1 ≤ ⌈x⌉ := by
    intro hx
    have := Int.lt_ceil.mpr hx
    omega
  unfold rhe
  split_ifs with h1 h2 h3
  · exact hfc
  · refine hlt ?_
    have : (0 : ℚ) < x - ⌊x⌋ := lt_trans (by norm_num) h2
    linarith
  · exact hfc
  · refine hlt ?_
    have h4 : x - ⌊x⌋ = 1/2 := le_antisymm (not_lt.mp h2) (not_lt.mp h1)
    have : (0 : ℚ) < x - ⌊x⌋ := by rw [h4]; norm_num
    linarith

lemma round5_nonneg {x : ℚ} (h : 0 ≤ x) : 0 ≤ round5 x := by
  unfold round5
  have h1 : (0 : ℤ) ≤ ⌊x * 100000⌋ := Int.floor_nonneg.mpr (by positivity)
  have h2 : (0 : ℤ) ≤ rhe (x * 100000) := le_trans h1 (rhe_ge_floor _)
  positivity

lemma round5_le_one {x : ℚ} (h : x ≤ 1) : round5 x ≤ 1 := by
  unfold round5
  have h1 : ⌈x * 100000⌉ ≤ (100000 : ℤ) := Int.ceil_le.mpr (by push_cast; linarith)
  have h2 : rhe (x * 100000) ≤ (100000 : ℤ) := le_trans (rhe_le_ceil _) h1
  rw [div_le_one (by norm_num)]
  exact_mod_cast h2

lemma round5_zero : round5 0 = 0 := by
  unfold round5 rhe
  norm_num

lemma round5_one : round5 1 = 1 := by
  unfold round5 rhe
  have h : ⌊(1 : ℚ) * 100000⌋ = 100000 := by
    rw [one_mul]
    exact_mod_cast Int.floor_intCast 100000
  rw [h]
  norm_num

lemma applyOp_eq_signVal (operation : String) (current_value random_value : ℚ) :
    applyOp operation current_value random_value
      = current_value + signVal operation * random_value := by
  unfold applyOp signVal
  split_ifs <;> ring

lemma adjustCell_nonneg (operation : String) (random_value current_value : ℚ) :
    0 ≤ adjustCell operation random_value current_value := by
  unfold adjustCell
  exact round5_nonneg (le_max_left 0 _)

lemma adjustCell_le_one (operation : String) (random_value current_value : ℚ) :
    adjustCell operation random_value current_value ≤ 1 := by
  unfold adjustCell
  exact round5_le_one (max_le (by norm_num) (min_le_left 1 _))

lemma adjustCell_of_lt_zero {operation : String} {random_value current_value : ℚ}
    (h : applyOp operation current_value random_value < 0) :
    adjustCell operation random_value current_value = 0 := by
  unfold adjustCell
  rw [min_eq_right (le_of_lt (lt_of_lt_of_le h (by norm_num))),
    max_eq_left (le_of_lt h), round5_zero]

lemma adjustCell_of_one_lt {operation : String} {random_value current_value : ℚ}
    (h : 1 < applyOp operation current_value random_value) :
    adjustCell operation random_value current_value = 1 := by
  unfold adjustCell
  rw [min_eq_left (le_of_lt h), max_eq_right (by norm_num : (0:ℚ) ≤ 1), round5_one]

lemma cols_foldl_writeColStep (df : DataFrame) (operation : String)
    (random_value : ℚ) (col : String) (L : List Nat) (acc : DataFrame) :
    (L.foldl (writeColStep df operation random_value col) acc).cols = acc.cols := by
  induction L generalizing acc with
  | nil => rfl
  | cons i L ih =>
    rw [List.foldl_cons, ih]
    exact DataFrame.cols_set acc i col _

lemma length_rows_foldl_writeColStep (df : DataFrame) (operation : String)
    (random_value : ℚ) (col : String) (L : List Nat) (acc : DataFrame) :
    (L.foldl (writeColStep df operation random_value col) acc).rows.length
      = acc.rows.length := by
  induction L generalizing acc with
  | nil => rfl
  | cons i L ih =>
    rw [List.foldl_cons, ih]
    exact DataFrame.length_rows_set acc i col _

lemma cols_foldl_adjustColumn (df : DataFrame) (operation : String)
    (random_value : ℚ) (sel : List String) (acc : DataFrame) :
    (sel.foldl (adjustColumn df operation random_value) acc).cols = acc.cols := by
  induction sel generalizing acc with
  | nil => rfl
  | cons c sel ih =>
    rw [List.foldl_cons, ih, adjustColumn_eq_foldl]
    exact cols_foldl_writeColStep df operation random_value c _ acc

lemma length_rows_foldl_adjustColumn (df : DataFrame) (operation : String)
    (random_value : ℚ) (sel : List String) (acc : DataFrame) :
    (sel.foldl (adjustColumn df operation random_value) acc).rows.length
      = acc.rows.length := by
  induction sel generalizing acc with
  | nil => rfl
  | cons c sel ih =>
    rw [List.foldl_cons, ih, adjustColumn_eq_foldl]
    exact length_rows_foldl_writeColStep df operation random_value c _ acc

/-- Claim C1: for every input table, every list of selected columns, and
every cell in a selected column, the value of that cell in the returned
adjusted table equals `clamp(currentValue + sign*magnitude, 0, 1)` rounded
to 5 decimal digits, where magnitude and sign are the pair returned by the
call; every adjusted cell lies in `[0, 1]`, and a delta that would push a
value below 0 or above 1 yields exactly 0 or exactly 1. -/
theorem C1_adjusted_cell_formula
    (s : SystemState) (df : DataFrame) (sel : List String) (u : ℚ) (c : Bool)
    (now : String) (s' : SystemState) (out : DataFrame) (rv : ℚ) (op : String)
    (h : adjust_dataframe s df sel u c now = .ok (s', out, rv, op))
    (idx : Nat) (col : String) (hcol : col ∈ sel) (hc : col ∈ df.cols)
    (hidx : idx < df.rows.length)
    (hrect : ∀ r ∈ df.rows, r.length = df.cols.length) :
    out.get idx col = round5 (max 0 (min 1 (df.get idx col + signVal op * rv))) ∧
    0 ≤ out.get idx col ∧ out.get idx col ≤ 1 ∧
    (df.get idx col + signVal op * rv < 0 → out.get idx col = 0) ∧
    (1 < df.get idx col + signVal op * rv → out.get idx col = 1) := by
  obtain ⟨hg, hout⟩ := adjust_ok_inv h
  have hcell : out.get idx col = adjustCell op rv (df.get idx col) := by
    rw [hout]
    exact foldl_adjustColumn_get_mem df op rv sel hcol (sameShape_refl hrect) hc hidx
  refine ⟨?_, ?_, ?_, ?_, ?_⟩
  · rw [hcell]
    unfold adjustCell
    rw [applyOp_eq_signVal]
  · rw [hcell]
    exact adjustCell_nonneg ..
  · rw [hcell]
    exact adjustCell_le_one ..
  · intro hlt
    rw [hcell]
    exact adjustCell_of_lt_zero (by rw [applyOp_eq_signVal]; exact hlt)
  · intro hlt
    rw [hcell]
    exact adjustCell_of_one_lt (by rw [applyOp_eq_signVal]; exact hlt)

/-- Claim C2: every cell outside the selected columns (the identifier
column included) is unchanged in the returned adjusted table, and the
returned table has the same columns and the same number of rows; the input
table itself is a value that the transform never writes to (the code
operates on `df.copy()`), so it is unchanged by the call. -/
theorem C2_frame_outside_selection
    (s : SystemState) (df : DataFrame) (sel : List String) (u : ℚ) (c : Bool)
    (now : String) (s' : SystemState) (out : DataFrame) (rv : ℚ) (op : String)
    (h : adjust_dataframe s df sel u c now = .ok (s', out, rv, op))
    (idx : Nat) (col : String) (hcol : col ∉ sel) :
    out.get idx col = df.get idx col ∧
    out.cols = df.cols ∧ out.rows.length = df.rows.length := by
  obtain ⟨hg, hout⟩ := adjust_ok_inv h
  subst hout
  exact ⟨foldl_adjustColumn_get_not_mem df op rv sel hcol df idx,
    cols_foldl_adjustColumn df op rv sel df,
    length_rows_foldl_adjustColumn df op rv sel df⟩

/-- Claim C3: every successful call to `adjust_dataframe` appends exactly
one event to the history, and the magnitude and sign stored in that event
are the magnitude and sign applied to the data and returned by the call;
the most recent (last inserted) history entry after the call is exactly
that event. -/
theorem C3_one_event_per_call
    (s : SystemState) (df : DataFrame) (sel : List String) (u : ℚ) (c : Bool)
    (now : String) (s' : SystemState) (out : DataFrame) (rv : ℚ) (op : String)
    (h : adjust_dataframe s df sel u c now = .ok (s', out, rv, op)) :
    s'.rows = s.rows ++ [{ id := s.nextId, random_value := rv,
                           operation := op, timestamp := now }] ∧
    s'.rows.getLast? = some { id := s.nextId, random_value := rv,
                              operation := op, timestamp := now } := by
  obtain ⟨hg, _⟩ := adjust_ok_inv h
  obtain ⟨_, _, _, _, hs⟩ := generate_ok_inv hg
  constructor
  · rw [hs]
  · rw [hs]
    exact List.getLast?_concat _

/-- Scenario A of the spec: identifier column `id` and feature columns
`f1 = 0.02`, `f2 = 0.5`. -/
def dfScenA : DataFrame :=
  { cols := ["id", "f1", "f2"], rows := [[1, 1/50, 1/2]] }

/-- Scenario A expected output: `f1` clamped to 0, `f2` unchanged. -/
def outScenA : DataFrame :=
  { cols := ["id", "f1", "f2"], rows := [[1, 0, 1/2]] }

/-- The history row recorded by the Scenario A call. -/
def rowScenA : AdjustmentRow :=
  { id := 1, random_value := 1/10, operation := "-",
    timestamp := "2026-01-01T00:00:00" }

/-- The store state after the Scenario A call. -/
def stScenA : SystemState :=
  { isOpen := true, writeFails := false, nextId := 2, rows := [rowScenA] }

lemma scenA_gen :
    generate_and_store_random initState 1 false "2026-01-01T00:00:00"
      = .ok (stScenA, 1/10, "-") := by
  have h := generate_open_ok initState 1 false "2026-01-01T00:00:00" rfl rfl
  rw [h]
  norm_num [npUniform, npChoiceSign, initState, stScenA, rowScenA]

lemma scenA_cell : adjustCell "-" (1/10) (1/50) = 0 := by
  have h1 : applyOp "-" (1/50) (1/10) = -(2/25) := by
    unfold applyOp
    rw [if_neg (by decide)]
    norm_num
  unfold adjustCell
  rw [h1, min_eq_right (by norm_num), max_eq_left (by norm_num), round5_zero]

lemma scenA_colIdx : dfScenA.colIdx "f1" = some 1 := by decide

lemma scenA_fold :
    ["f1"].foldl (adjustColumn dfScenA "-" (1/10)) dfScenA = outScenA := by
  simp only [List.foldl_cons, List.foldl_nil]
  unfold adjustColumn
  have hlen : dfScenA.rows.length = 1 := rfl
  rw [hlen]
  have hrange : List.range 1 = [0] := rfl
  rw [hrange]
  simp only [List.foldl_cons, List.foldl_nil]
  rw [DataFrame.get_of_colIdx_some scenA_colIdx 0]
  have hget : (dfScenA.rows.getD 0 []).getD 1 0 = 1/50 := by simp [dfScenA]
  rw [hget, scenA_cell]
  rw [DataFrame.set_of_colIdx_some scenA_colIdx 0 0]
  simp [dfScenA, outScenA]

lemma scenA_run :
    adjust_dataframe initState dfScenA ["f1"] 1 false "2026-01-01T00:00:00"
      = .ok (stScenA, outScenA, 1/10, "-") := by
  rw [adjust_ok_of_generate_ok scenA_gen, scenA_fold]

/-- Claim C1 witness: the adjusted-cell formula instantiated on Scenario A
of the spec (`f1 = 0.02`, magnitude `0.1`, sign `-`, so `f1` clamps to 0). -/
theorem C1_witness :
    outScenA.get 0 "f1"
        = round5 (max 0 (min 1 (dfScenA.get 0 "f1" + signVal "-" * (1/10)))) ∧
    0 ≤ outScenA.get 0 "f1" ∧ outScenA.get 0 "f1" ≤ 1 ∧
    (dfScenA.get 0 "f1" + signVal "-" * (1/10) < 0 → outScenA.get 0 "f1" = 0) ∧
    (1 < dfScenA.get 0 "f1" + signVal "-" * (1/10) → outScenA.get 0 "f1" = 1) :=
  C1_adjusted_cell_formula initState dfScenA ["f1"] 1 false "2026-01-01T00:00:00"
    stScenA outScenA (1/10) "-" scenA_run 0 "f1" (by simp) (by decide) (by decide)
    (by decide)

/-- Claim C2 witness: on Scenario A, the non-selected column `f2` and the
table shape are unchanged. -/
theorem C2_witness :
    outScenA.get 0 "f2" = dfScenA.get 0 "f2" ∧
    outScenA.cols = dfScenA.cols ∧ outScenA.rows.length = dfScenA.rows.length :=
  C2_frame_outside_selection initState dfScenA ["f1"] 1 false "2026-01-01T00:00:00"
    stScenA outScenA (1/10) "-" scenA_run 0 "f2" (by decide)

/-- Claim C3 witness: the Scenario A call appends exactly its own
magnitude/sign event to the empty history. -/
theorem C3_witness :
    stScenA.rows = initState.rows
        ++ [{ id := initState.nextId, random_value := 1/10, operation := "-",
              timestamp := "2026-01-01T00:00:00" }] ∧
    stScenA.rows.getLast? = some { id := initState.nextId, random_value := 1/10,
                                   operation := "-",
                                   timestamp := "2026-01-01T00:00:00" } :=
  C3_one_event_per_call initState dfScenA ["f1"] 1 false "2026-01-01T00:00:00"
    stScenA outScenA (1/10) "-" scenA_run

/-- Scenario B of the spec: a table handed to the transform with an empty
selection. -/
def dfScenB : DataFrame :=
  { cols := ["id", "f1"], rows := [[1, 1/2]] }

/-- The history row recorded by the empty-selection call (`u = 1/2` gives
magnitude `0.01 + 0.09/2 = 11/200`). -/
def rowScenB : AdjustmentRow :=
  { id := 1, random_value := 11/200, operation := "+",
    timestamp := "2026-01-01T00:00:00" }

/-- The store state after the empty-selection call. -/
def stScenB : SystemState :=
  { isOpen := true, writeFails := false, nextId := 2, rows := [rowScenB] }

lemma scenB_gen :
    generate_and_store_random initState (1/2) true "2026-01-01T00:00:00"
      = .ok (stScenB, 11/200, "+") := by
  have h := generate_open_ok initState (1/2) true "2026-01-01T00:00:00" rfl rfl
  rw [h]
  norm_num [npUniform, npChoiceSign, initState, stScenB, rowScenB]

lemma scenB_run :
    adjust_dataframe initState dfScenB [] (1/2) true "2026-01-01T00:00:00"
      = .ok (stScenB, dfScenB, 11/200, "+") := by
  rw [adjust_ok_of_generate_ok scenB_gen]
  rfl

/-- Claim C5 counterexample: invoking `adjust_dataframe` with an empty
selection leaves the table unchanged, but it still inserts one history row
(the random draw is stored before the loop runs), contradicting the claim
that no history row is created by the call. -/
theorem C5_counterexample :
    adjust_dataframe initState dfScenB [] (1/2) true "2026-01-01T00:00:00"
      = .ok (stScenB, dfScenB, 11/200, "+") ∧
    initState.rows.length = 0 ∧ stScenB.rows.length = 1 :=
  ⟨scenB_run, rfl, rfl⟩

/-- Claim C5 (amended): with an empty selection the transform performs no
selection validation and no-ops on the table — the returned table is the
input table and no cell changes — but the call still draws a random pair
and appends exactly one history row. -/
theorem C5_empty_selection
    (s : SystemState) (df : DataFrame) (u : ℚ) (c : Bool) (now : String)
    (hopen : s.isOpen = true) (hw : s.writeFails = false) :
    adjust_dataframe s df [] u c now =
      .ok ({ s with
               nextId := s.nextId + 1,
               rows := s.rows ++ [{ id := s.nextId,
                                    random_value := npUniform 0.01 0.1 u,
                                    operation := npChoiceSign c,
                                    timestamp := now }] },
           df, npUniform 0.01 0.1 u, npChoiceSign c) := by
  rw [adjust_ok_of_generate_ok (generate_open_ok s u c now hopen hw)]
  rfl

/-- Claim C5 witness: the amended statement instantiated on Scenario B. -/
theorem C5_witness :
    adjust_dataframe initState dfScenB [] (1/2) true "2026-01-01T00:00:00"
      = .ok ({ initState with
                 nextId := initState.nextId + 1,
                 rows := initState.rows
                   ++ [{ id := initState.nextId,
                         random_value := npUniform 0.01 0.1 (1/2),
                         operation := npChoiceSign true,
                         timestamp := "2026-01-01T00:00:00" }] },
             dfScenB, npUniform 0.01 0.1 (1/2), npChoiceSign true) :=
  C5_empty_selection initState dfScenB (1/2) true "2026-01-01T00:00:00" rfl rfl

/-- A store whose underlying storage refuses writes. -/
def stFail : SystemState :=
  { isOpen := true, writeFails := true, nextId := 1, rows := [] }

/-- Claim C6: a persistence failure during the history write is propagated
to the caller (the `INSERT` raises and nothing catches it), and in that
case `adjust_dataframe` returns no adjusted table: the history write
happens before any cell is modified, so transform-plus-log fail as one
unit on write failure. -/
theorem C6_persistence_failure_propagates
    (s : SystemState) (df : DataFrame) (sel : List String) (u : ℚ) (c : Bool)
    (now : String) (hopen : s.isOpen = true) (hfail : s.writeFails = true) :
    generate_and_store_random s u c now = .error .persistence ∧
    adjust_dataframe s df sel u c now = .error .persistence :=
  ⟨generate_persistence u c now hopen hfail,
   adjust_error_of_generate_error (generate_persistence u c now hopen hfail)⟩

/-- Claim C6 witness: a failing store propagates the persistence error on a
concrete call. -/
theorem C6_witness :
    generate_and_store_random stFail (1/2) true "2026-01-01T00:00:00"
      = .error .persistence ∧
    adjust_dataframe stFail dfScenB ["f1"] (1/2) true "2026-01-01T00:00:00"
      = .error .persistence :=
  C6_persistence_failure_propagates stFail dfScenB ["f1"] (1/2) true
    "2026-01-01T00:00:00" rfl rfl

lemma get_closed {s : SystemState} (h : s.isOpen = false) :
    get_adjustment_history s = .error .closed := by
  unfold get_adjustment_history
  rw [if_neg (by simp [h])]

/-- Claim C7: the store is a two-state machine.  After `close`, any record
(`generate_and_store_random` / `adjust_dataframe`) or read
(`get_adjustment_history`) call fails with the store-closed error and no
new state (hence no row) is produced; `close` always yields a closed store
without touching the rows; and no record operation changes the open flag,
so Open→Closed is one-way and triggered only by an explicit `close`. -/
theorem C7_closed_store_state_machine :
    (∀ (s : SystemState) (df : DataFrame) (sel : List String) (u : ℚ) (c : Bool)
        (now : String), s.isOpen = false →
        generate_and_store_random s u c now = .error .closed ∧
        adjust_dataframe s df sel u c now = .error .closed ∧
        get_adjustment_history s = .error .closed) ∧
    (∀ s : SystemState, (close s).isOpen = false ∧ (close s).rows = s.rows) ∧
    (∀ (s : SystemState) (u : ℚ) (c : Bool) (now : String) (s' : SystemState)
        (rv : ℚ) (op : String),
        generate_and_store_random s u c now = .ok (s', rv, op) →
        s'.isOpen = s.isOpen) ∧
    (∀ (s : SystemState) (df : DataFrame) (sel : List String) (u : ℚ) (c : Bool)
        (now : String) (s' : SystemState) (out : DataFrame) (rv : ℚ) (op : String),
        adjust_dataframe s df sel u c now = .ok (s', out, rv, op) →
        s'.isOpen = s.isOpen) := by
  refine ⟨?_, ?_, ?_, ?_⟩
  · intro s df sel u c now h
    exact ⟨generate_closed u c now h,
      adjust_error_of_generate_error (generate_closed u c now h),
      get_closed h⟩
  · intro s
    exact ⟨rfl, rfl⟩
  · intro s u c now s' rv op h
    obtain ⟨_, _, _, _, hs⟩ := generate_ok_inv h
    rw [hs]
  · intro s df sel u c now s' out rv op h
    obtain ⟨hg, _⟩ := adjust_ok_inv h
    obtain ⟨_, _, _, _, hs⟩ := generate_ok_inv hg
    rw [hs]

/-- Claim C7 witness: the state machine instantiated on a freshly closed
store and on the two successful Scenario A / Scenario B calls. -/
theorem C7_witness :
    (generate_and_store_random (close initState) (1/2) true "2026-01-01T00:00:00"
        = .error .closed ∧
     adjust_dataframe (close initState) dfScenB ["f1"] (1/2) true
        "2026-01-01T00:00:00" = .error .closed ∧
     get_adjustment_history (close initState) = .error .closed) ∧
    ((close initState).isOpen = false ∧ (close initState).rows = initState.rows) ∧
    stScenB.isOpen = initState.isOpen ∧ stScenA.isOpen = initState.isOpen :=
  ⟨C7_closed_store_state_machine.1 (close initState) dfScenB ["f1"] (1/2) true
      "2026-01-01T00:00:00" rfl,
   C7_closed_store_state_machine.2.1 initState,
   C7_closed_store_state_machine.2.2.1 initState (1/2) true "2026-01-01T00:00:00"
      stScenB (11/200) "+" scenB_gen,
   C7_closed_store_state_machine.2.2.2 initState dfScenA ["f1"] 1 false
      "2026-01-01T00:00:00" stScenA outScenA (1/10) "-" scenA_run⟩

/-- Invariant of the `adjustments` table: ids strictly increase in insertion
order (hence are unique) and stay below the `AUTOINCREMENT` counter. -/
def idsStrictMono (s : SystemState) : Prop :=
  s.rows.Pairwise (fun a b => a.id < b.id) ∧ ∀ r ∈ s.rows, r.id < s.nextId

/-- Claim C8: every successful record appends one event whose id is
strictly greater than every previously assigned id (ids strictly increase
with insertion order, so they are unique), the invariant is preserved, and
no operation updates or deletes an existing event: a successful record
appends to the row list and `close` leaves it untouched (failed calls
produce no new state at all), so the history is append-only. -/
theorem C8_ids_strictly_increasing_append_only :
    idsStrictMono initState ∧
    (∀ (s : SystemState) (u : ℚ) (c : Bool) (now : String) (s' : SystemState)
        (rv : ℚ) (op : String),
        generate_and_store_random s u c now = .ok (s', rv, op) →
        idsStrictMono s →
        s'.rows = s.rows ++ [{ id := s.nextId, random_value := rv,
                               operation := op, timestamp := now }] ∧
        (∀ r ∈ s.rows, r.id < s.nextId) ∧
        idsStrictMono s') ∧
    (∀ s : SystemState, (close s).rows = s.rows) := by
  refine ⟨⟨List.Pairwise.nil, fun r hr => absurd hr (List.not_mem_nil r)⟩, ?_, ?_⟩
  · intro s u c now s' rv op h hmono
    obtain ⟨_, _, _, _, hs⟩ := generate_ok_inv h
    have hrows : s'.rows = s.rows ++ [(⟨s.nextId, rv, op, now⟩ : AdjustmentRow)] := by
      rw [hs]
    refine ⟨hrows, hmono.2, ?_, ?_⟩
    · rw [hrows]
      rw [List.pairwise_append]
      refine ⟨hmono.1, List.pairwise_singleton _ _, ?_⟩
      intro a ha b hb
      rw [List.mem_singleton] at hb
      subst hb
      exact hmono.2 a ha
    · intro r hr
      rw [hrows] at hr
      have hnext : s'.nextId = s.nextId + 1 := by rw [hs]
      rw [hnext]
      rcases List.mem_append.mp hr with hr | hr
      · exact lt_trans (hmono.2 r hr) (Nat.lt_succ_self _)
      · rw [List.mem_singleton] at hr
        subst hr
        exact Nat.lt_succ_self _
  · intro s
    rfl

/-- Claim C8 witness: the invariant holds for the fresh store and is
preserved by the concrete Scenario B insertion, whose new id 1 exceeds all
(zero) previous ids. -/
theorem C8_witness :
    idsStrictMono initState ∧
    (stScenB.rows = initState.rows
        ++ [{ id := initState.nextId, random_value := 11/200, operation := "+",
              timestamp := "2026-01-01T00:00:00" }] ∧
     (∀ r ∈ initState.rows, r.id < initState.nextId) ∧
     idsStrictMono stScenB) :=
  ⟨C8_ids_strictly_increasing_append_only.1,
   C8_ids_strictly_increasing_append_only.2.1 initState (1/2) true
     "2026-01-01T00:00:00" stScenB (11/200) "+" scenB_gen
     C8_ids_strictly_increasing_append_only.1⟩

/-- Claim C9: for every successful adjustment call with a unit draw
`u ∈ [0, 1)`, the drawn magnitude lies in `[0.01, 0.1)`, the drawn sign is
`'+'` or `'-'`, and the recorded history row carries exactly that
magnitude and sign. -/
theorem C9_magnitude_sign_ranges
    (s : SystemState) (u : ℚ) (c : Bool) (now : String) (s' : SystemState)
    (rv : ℚ) (op : String) (hu0 : 0 ≤ u) (hu1 : u < 1)
    (h : generate_and_store_random s u c now = .ok (s', rv, op)) :
    1/100 ≤ rv ∧ rv < 1/10 ∧ (op = "+" ∨ op = "-") ∧
    s'.rows.getLast? = some { id := s.nextId, random_value := rv,
                              operation := op, timestamp := now } := by
  obtain ⟨_, _, hrv, hop, hs⟩ := generate_ok_inv h
  refine ⟨?_, ?_, ?_, ?_⟩
  · rw [hrv]
    unfold npUniform
    nlinarith
  · rw [hrv]
    unfold npUniform
    nlinarith
  · rw [hop]
    unfold npChoiceSign
    cases c
    · exact Or.inr rfl
    · exact Or.inl rfl
  · rw [hs]
    exact List.getLast?_concat _

/-- Claim C9 witness: the Scenario B draw (`u = 1/2`) gives magnitude
`11/200 ∈ [0.01, 0.1)` and sign `'+'`, recorded as the last history row. -/
theorem C9_witness :
    1/100 ≤ (11/200 : ℚ) ∧ (11/200 : ℚ) < 1/10 ∧
    (("+" : String) = "+" ∨ ("+" : String) = "-") ∧
    stScenB.rows.getLast? = some { id := initState.nextId, random_value := 11/200,
                                   operation := "+",
                                   timestamp := "2026-01-01T00:00:00" } :=
  C9_magnitude_sign_ranges initState (1/2) true "2026-01-01T00:00:00" stScenB
    (11/200) "+" (by norm_num) (by norm_num) scenB_gen

/-- Claim C10: apart from the random draw, the transform is deterministic —
two successful calls on the same table with the same selected columns whose
drawn magnitude and sign coincide return equal adjusted tables, whatever
the store states and timestamps were. -/
theorem C10_deterministic_given_draw
    (s₁ s₂ : SystemState) (df : DataFrame) (sel : List String)
    (u₁ u₂ : ℚ) (c₁ c₂ : Bool) (now₁ now₂ : String)
    (s₁' s₂' : SystemState) (out₁ out₂ : DataFrame) (rv₁ rv₂ : ℚ)
    (op₁ op₂ : String)
    (h₁ : adjust_dataframe s₁ df sel u₁ c₁ now₁ = .ok (s₁', out₁, rv₁, op₁))
    (h₂ : adjust_dataframe s₂ df sel u₂ c₂ now₂ = .ok (s₂', out₂, rv₂, op₂))
    (hrv : rv₁ = rv₂) (hop : op₁ = op₂) :
    out₁ = out₂ := by
  obtain ⟨_, hout₁⟩ := adjust_ok_inv h₁
  obtain ⟨_, hout₂⟩ := adjust_ok_inv h₂
  rw [hout₁, hout₂, hrv, hop]

/-- The history row of the second, replayed Scenario A call. -/
def rowScenA2 : AdjustmentRow :=
  { id := 2, random_value := 1/10, operation := "-",
    timestamp := "2026-02-02T00:00:00" }

/-- The store state after replaying Scenario A on a different store. -/
def stScenA2 : SystemState :=
  { isOpen := true, writeFails := false, nextId := 3,
    rows := [rowScenB, rowScenA2] }

lemma scenA2_gen :
    generate_and_store_random stScenB 1 false "2026-02-02T00:00:00"
      = .ok (stScenA2, 1/10, "-") := by
  have h := generate_open_ok stScenB 1 false "2026-02-02T00:00:00" rfl rfl
  rw [h]
  norm_num [npUniform, npChoiceSign, stScenB, stScenA2, rowScenA2]

lemma scenA2_run :
    adjust_dataframe stScenB dfScenA ["f1"] 1 false "2026-02-02T00:00:00"
      = .ok (stScenA2, outScenA, 1/10, "-") := by
  rw [adjust_ok_of_generate_ok scenA2_gen, scenA_fold]

/-- Claim C10 witness: Scenario A run from two different store states with
two different timestamps but the same draw yields the same adjusted
table. -/
theorem C10_witness : outScenA = outScenA :=
  C10_deterministic_given_draw initState stScenB dfScenA ["f1"] 1 1 false false
    "2026-01-01T00:00:00" "2026-02-02T00:00:00" stScenA stScenA2 outScenA outScenA
    (1/10) (1/10) "-" "-" scenA_run scenA2_run rfl rfl

/-- First of two history rows sharing one timestamp. -/
def rowTie1 : AdjustmentRow :=
  { id := 1, random_value := 1/20, operation := "+",
    timestamp := "2026-01-01T00:00:00" }

/-- Second of two history rows sharing one timestamp. -/
def rowTie2 : AdjustmentRow :=
  { id := 2, random_value := 1/20, operation := "-",
    timestamp := "2026-01-01T00:00:00" }

/-- A store holding two rows with identical timestamps. -/
def stTie : SystemState :=
  { isOpen := true, writeFails := false, nextId := 3,
    rows := [rowTie1, rowTie2] }

lemma stTie_history : get_adjustment_history stTie = .ok [rowTie1, rowTie2] := by
  unfold get_adjustment_history
  rw [if_pos (show stTie.isOpen = true from rfl)]
  have hsorted : List.Pairwise (fun a b => tsDesc a b = true) [rowTie1, rowTie2] := by
    refine List.Pairwise.cons ?_ (List.pairwise_singleton _ _)
    intro b hb
    rw [List.mem_singleton] at hb
    subst hb
    exact decide_eq_true (le_refl _)
  have hrows : stTie.rows = [rowTie1, rowTie2] := rfl
  rw [hrows, List.mergeSort_of_sorted hsorted]
  rfl

/-- Claim C4 counterexample: `ORDER BY timestamp DESC` alone does not break
timestamp ties by id descending — on a store holding two rows with equal
timestamps and ids 1 then 2, the query returns them in insertion (id
ascending) order, not id descending. -/
theorem C4_counterexample :
    get_adjustment_history stTie = .ok [rowTie1, rowTie2] ∧
    rowTie1.timestamp = rowTie2.timestamp ∧
    ¬ List.Pairwise (fun a b : AdjustmentRow => b.id < a.id) [rowTie1, rowTie2] := by
  refine ⟨stTie_history, rfl, ?_⟩
  intro hp
  have := List.rel_of_pairwise_cons hp (List.mem_singleton.mpr rfl)
  simp [rowTie1, rowTie2] at this

/-- Claim C4 (amended): the history query returns at most 10 events (the
limit is hard-coded to 10, not a parameter), ordered by timestamp
descending; the order among equal timestamps is whatever the underlying
sort produces (insertion order here, not id descending); it returns an
empty sequence when no events exist, and it reads the store without
modifying it (every returned row is an existing row). -/
theorem C4_history_query (s : SystemState) (l : List AdjustmentRow)
    (h : get_adjustment_history s = .ok l) :
    l.length ≤ 10 ∧
    List.Pairwise (fun a b => b.timestamp ≤ a.timestamp) l ∧
    (s.rows = [] → l = []) ∧
    ∀ r ∈ l, r ∈ s.rows := by
  unfold get_adjustment_history at h
  by_cases hopen : s.isOpen = true
  · rw [if_pos hopen] at h
    simp only [Except.ok.injEq] at h
    subst h
    have htrans : ∀ a b c : AdjustmentRow,
        tsDesc a b = true → tsDesc b c = true → tsDesc a c = true := by
      intro a b c hab hbc
      exact decide_eq_true (le_trans (of_decide_eq_true hbc) (of_decide_eq_true hab))
    have htotal : ∀ a b : AdjustmentRow, (tsDesc a b || tsDesc b a) = true := by
      intro a b
      rw [Bool.or_eq_true]
      rcases le_total a.timestamp b.timestamp with hab | hab
      · exact Or.inr (decide_eq_true hab)
      · exact Or.inl (decide_eq_true hab)
    refine ⟨?_, ?_, ?_, ?_⟩
    · rw [List.length_take]
      exact min_le_left _ _
    · have hp := List.sorted_mergeSort htrans htotal s.rows
      have hp10 := List.Pairwise.sublist (List.take_sublist 10 _) hp
      exact hp10.imp (fun hab => of_decide_eq_true hab)
    · intro hrows
      rw [hrows, List.mergeSort_nil]
      rfl
    · intro r hr
      have h1 : r ∈ s.rows.mergeSort tsDesc :=
        (List.take_sublist 10 _).mem hr
      exact (List.mergeSort_perm s.rows tsDesc).mem_iff.mp h1
  · rw [if_neg hopen] at h
    exact absurd h (by simp)

/-- Claim C4 witness: the amended query contract instantiated on the
one-row store left by Scenario B. -/
theorem C4_witness :
    ([rowScenB] : List AdjustmentRow).length ≤ 10 ∧
    List.Pairwise (fun a b : AdjustmentRow => b.timestamp ≤ a.timestamp) [rowScenB] ∧
    (stScenB.rows = [] → [rowScenB] = ([] : List AdjustmentRow)) ∧
    (∀ r ∈ ([rowScenB] : List AdjustmentRow), r ∈ stScenB.rows) :=
  C4_history_query stScenB [rowScenB] (by
    unfold get_adjustment_history
    rw [if_pos (show stScenB.isOpen = true from rfl)]
    have hrows : stScenB.rows = [rowScenB] := rfl
    rw [hrows, List.mergeSort_singleton]
    rfl)

end FeatureSelection
